import Mathlib

/-!
# Ledger transfer engine of ModularBankingSystem — formal model

Shallow embedding of the transfer engine of the ModularBankingSystem
repository: `services/transaction_services.py`,
`services/audit_services.py`, the request model of
`models/transaction_models.py`, and the ORM rows of
`models/orm_models.py` that the engine reads and writes.

Modelling decisions, justified against the source:

* Monetary values (`Decimal` in Python, `NUMERIC(15,2)` in the schema)
  are rationals (`ℚ`).  `Decimal.quantize(Decimal(".01"),
  rounding=ROUND_HALF_UP)` is `roundHalfUp2` (half away from zero, as
  Python's `ROUND_HALF_UP` specifies).
* Database tables are lists of rows; the SQLAlchemy session is made
  explicit.  `db.commit()` publishes the working state as the new
  committed state; an `HTTPException` raised before any commit leaves
  the committed state unchanged, because the FastAPI dependency
  `get_db` (`utility/database.py`) rolls the session back on an
  exception break — in particular the tracker row flushed (not
  committed) by `_get_daily_tracker` is discarded when a validation
  check rejects the transfer.
* The only fallible effect inside the `try:` block of
  `process_fund_transfer` is a `db.commit()`; attribute assignments
  and `db.add` are in-memory.  Whether each commit attempt succeeds is
  an explicit `Bool` parameter (`cAudit` for the commit issued inside
  `create_audit_log` on the success path, `cOuter` for the
  `db.commit()` of `process_fund_transfer` itself, `cFail` for the
  commit of the best-effort Failed record).  A commit of a session
  with no pending changes is the same state either way.
* `create_audit_log` uses the caller's session: it adds the log row
  and commits the whole session, catching and swallowing every
  exception (after a rollback).  This is embedded exactly, which is
  what makes its failure domain observable in the theorems below.
* `uuid.uuid4()` results are passed in as parameters (`txnId`,
  `failTxnId`); `date.today()` / the `timestamp` column's calendar
  date is a `Nat` parameter `today`.
* The pydantic validation of `TransactionRequest` (`amount` with
  `gt=0`, `max_digits=15`, `decimal_places=2`) is `mkTransactionRequest`;
  `transfer` is the full pipeline a caller of the
  `/customer/transfer` route sees: request validation followed by
  `process_fund_transfer`.
-/

/-- The `TransactionStatus` enum of `models/transaction_models.py`. -/
inductive TransactionStatus where
  | SUCCESS
  | FAILED
  | PENDING
deriving DecidableEq, Repr

/-- The `TransactionType` enum of `models/transaction_models.py`. -/
inductive TransactionType where
  | TRANSFER
  | REPAYMENT
  | DEPOSIT
  | WITHDRAWAL
deriving DecidableEq, Repr

/-- The `Account` ORM row (`models/orm_models.py`): primary key
`account_id`, owner `customer_id`, unique human-facing
`account_number`, `current_balance NUMERIC(15,2)`.  The `account_type`
and `created_at` columns are never read by the transfer engine and are
omitted. -/
structure Account where
  account_id : String
  customer_id : String
  account_number : String
  current_balance : ℚ
deriving DecidableEq, Repr

/-- The `Transaction` ORM row.  `tdate` is the calendar date of the
`timestamp` column (`server_default=func.now()`), which for a row
inserted by the engine is the date of the call. -/
structure Transaction where
  transaction_id : String
  source_account_id : String
  target_account_id : String
  amount : ℚ
  transaction_type : TransactionType
  tdate : Nat
  tstatus : TransactionStatus
deriving DecidableEq, Repr

/-- The `Daily_Limit_Tracker` ORM row: running total of transfers out
of `account_id` on `transaction_date`. -/
structure DailyLimitTracker where
  account_id : String
  transaction_date : Nat
  transacted_amount : ℚ
deriving DecidableEq, Repr

/-- An `Audit_Log` row as written by the transfer engine through
`create_audit_log`: `user_id` is the acting customer, `success`
distinguishes the `"Fund Transfer SUCCESS"` action label from
`"Fund Transfer FAILED"`, and `source`/`target`/`amount`/`txn_id`
are the `details` payload fields (`txn_id` is present only in the
success payload; the failure payload carries an error string
instead). -/
structure AuditEntry where
  user_id : Option String
  success : Bool
  source : String
  target : String
  amount : ℚ
  txn_id : Option String
deriving DecidableEq, Repr

/-- The database state read and written by the transfer engine: the
four tables as lists of rows. -/
structure BankState where
  accounts : List Account
  trackers : List DailyLimitTracker
  transactions : List Transaction
  audits : List AuditEntry
deriving DecidableEq, Repr

/-- The constant `DAILY_TRANSFER_LIMIT = Decimal("50000.00")` of
`services/transaction_services.py`. -/
def DAILY_TRANSFER_LIMIT : ℚ := 50000

/-- Python's `amount.quantize(Decimal(".01"), rounding=ROUND_HALF_UP)`:
round to two decimal places, ties away from zero (Python's
`ROUND_HALF_UP`). -/
def roundHalfUp2 (q : ℚ) : ℚ :=
  if 0 ≤ q then (⌊q * 100 + 1 / 2⌋ : ℚ) / 100
  else -((⌊-q * 100 + 1 / 2⌋ : ℚ) / 100)

/-- The pydantic constraints on `TransactionRequest.amount`
(`models/transaction_models.py`): `gt=Decimal(0)`, `decimal_places=2`
(so `amount * 100` is an integer), `max_digits=15` (so that integer
has at most 15 digits). -/
def validAmount (q : ℚ) : Prop :=
  0 < q ∧ (q * 100).den = 1 ∧ (q * 100).num < 10 ^ 15

instance validAmount.decidable : DecidablePred validAmount := fun q => by
  unfold validAmount
  infer_instance

/-- The `TransactionRequest` model (`models/transaction_models.py`); the
optional `description` field is never read by the engine and is
omitted. -/
structure TransactionRequest where
  source_account_number : String
  target_account_number : String
  amount : ℚ
deriving DecidableEq, Repr

/-- Construction of a `TransactionRequest` through pydantic
validation: a request with an amount violating the field constraints
never reaches the service layer. -/
def mkTransactionRequest (srcN tgtN : String) (amount : ℚ) :
    Option TransactionRequest :=
  if validAmount amount then some ⟨srcN, tgtN, amount⟩ else none

/-- Embeds `db.query(Account).filter(Account.account_number == n).first()`. -/
def findAccount (accounts : List Account) (n : String) : Option Account :=
  accounts.find? (fun a => a.account_number == n)

/-- Embeds `db.query(DailyLimitTracker).filter(account_id == aid,
transaction_date == d).first()`. -/
def findTracker (trackers : List DailyLimitTracker) (aid : String) (d : Nat) :
    Option DailyLimitTracker :=
  trackers.find? (fun t => t.account_id == aid && t.transaction_date == d)

/-- In-session mutation `row.current_balance += delta` of the row the
`account_number` query returned: the first row of the table with that
number (the session's identity map makes two queries for the same
number yield the same row object). -/
def updFirstBalance : List Account → String → ℚ → List Account
  | [], _, _ => []
  | a :: rest, n, delta =>
    if a.account_number == n then
      { a with current_balance := a.current_balance + delta } :: rest
    else
      a :: updFirstBalance rest n delta

/-- In-session mutation `tracker.transacted_amount = v` of the row the
`(account_id, transaction_date)` query returned: the first row of the
table with that key. -/
def setFirstTracker : List DailyLimitTracker → String → Nat → ℚ →
    List DailyLimitTracker
  | [], _, _, _ => []
  | t :: rest, aid, d, v =>
    if t.account_id == aid && t.transaction_date == d then
      { t with transacted_amount := v } :: rest
    else
      t :: setFirstTracker rest aid d v

/-- Embeds `_get_daily_tracker` (`services/transaction_services.py`): return
the existing tracker for `(aid, today)`, or add (flush, not commit) a
zero-initialized one.  The result is the tracker's current
`transacted_amount` together with the working tracker table. -/
def get_daily_tracker (trackers : List DailyLimitTracker) (aid : String)
    (today : Nat) : ℚ × List DailyLimitTracker :=
  match findTracker trackers aid today with
  | some tracker => (tracker.transacted_amount, trackers)
  | none => (0, trackers ++ [⟨aid, today, 0⟩])

/-- Embeds `create_audit_log` (`services/audit_services.py`): add the log row
to the caller's session and `db.commit()` it — committing every
pending change of that session with it.  On any exception the session
is rolled back and the exception is swallowed.  Arguments: whether the
commit succeeds, the entry, the committed state, and the working
state; result: the new committed and working states. -/
def create_audit_log (commitOk : Bool) (entry : AuditEntry)
    (committed working : BankState) : BankState × BankState :=
  let w := { working with audits := working.audits ++ [entry] }
  if commitOk then (w, w) else (committed, committed)

/-- The error taxonomy of the engine's `HTTPException`s (§7 of the
spec): 404 for the two account lookups and for the balance read, 403
for ownership and the daily limit, 400 for insufficient funds, 500
for the catch-all, and the pydantic rejection of a non-positive or
malformed amount. -/
inductive TransferError where
  | invalidAmount
  | sourceNotFound
  | targetNotFound
  | accountNotFound
  | forbidden
  | dailyLimitExceeded
  | insufficientFunds
  | internalError
deriving DecidableEq, Repr

/-- Result of a transfer call: the transaction id on success, an
`HTTPException` class otherwise. -/
inductive TransferOutcome where
  | ok (txnId : String)
  | err (e : TransferError)
deriving DecidableEq, Repr

/-- Embeds `process_fund_transfer` (`services/transaction_services.py`),
given the commit oracle (`cAudit`, `cOuter`, `cFail`), today's date,
the authenticated customer, the validated request, the two fresh
uuids, and the committed database state.  Returns the outcome and the
final committed state.

The success branch mirrors the source line by line: round the amount;
resolve source and target by account number (404 on either miss);
check ownership of the source (403); load or create today's tracker;
reject if the running total plus the amount exceeds the limit (403)
or if the balance is short (400) — each rejection leaves the
committed state untouched; otherwise debit, credit, update the
tracker, add the Success `Transaction` row, and call
`create_audit_log`, whose `db.commit()` is the one that publishes all
of it.  If that commit fails, `create_audit_log` rolls back and
swallows, and the engine still returns the transaction id.  The
`except` branch (best-effort Failed record, `HTTP_500`) is reachable
only through the engine's own `db.commit()` failing. -/
def process_fund_transfer (cAudit cOuter cFail : Bool) (today : Nat)
    (customer_id : String) (request : TransactionRequest)
    (txnId failTxnId : String) (s : BankState) :
    TransferOutcome × BankState :=
  let amount := roundHalfUp2 request.amount
  match findAccount s.accounts request.source_account_number with
  | none => (.err .sourceNotFound, s)
  | some source_account =>
    match findAccount s.accounts request.target_account_number with
    | none => (.err .targetNotFound, s)
    | some target_account =>
      if source_account.customer_id ≠ customer_id then
        (.err .forbidden, s)
      else
        let tr := get_daily_tracker s.trackers source_account.account_id today
        let new_transacted_amount := tr.1 + amount
        if new_transacted_amount > DAILY_TRANSFER_LIMIT then
          (.err .dailyLimitExceeded, s)
        else if source_account.current_balance < amount then
          (.err .insufficientFunds, s)
        else
          let w2 : BankState :=
            { s with
              accounts := updFirstBalance
                (updFirstBalance s.accounts request.source_account_number
                  (-amount))
                request.target_account_number amount,
              trackers := setFirstTracker tr.2 source_account.account_id today
                new_transacted_amount,
              transactions := s.transactions ++
                [⟨txnId, source_account.account_id, target_account.account_id,
                  amount, .TRANSFER, today, .SUCCESS⟩] }
          let entry : AuditEntry :=
            ⟨some customer_id, true, request.source_account_number,
              request.target_account_number, amount, some txnId⟩
          let cw := create_audit_log cAudit entry s w2
          if cOuter then
            (.ok txnId, cw.1)
          else
            let wf : BankState :=
              { cw.1 with
                transactions := cw.1.transactions ++
                  [⟨failTxnId, source_account.account_id,
                    target_account.account_id, amount, .TRANSFER, today,
                    .FAILED⟩] }
            let failEntry : AuditEntry :=
              ⟨some customer_id, false, request.source_account_number,
                request.target_account_number, amount, none⟩
            (.err .internalError, (create_audit_log cFail failEntry cw.1 wf).1)

/-- The full `/customer/transfer` pipeline: pydantic validation of the
request body followed by `process_fund_transfer`. -/
def transfer (cAudit cOuter cFail : Bool) (today : Nat)
    (customer_id srcN tgtN : String) (amount : ℚ)
    (txnId failTxnId : String) (s : BankState) :
    TransferOutcome × BankState :=
  match mkTransactionRequest srcN tgtN amount with
  | none => (.err .invalidAmount, s)
  | some request =>
    process_fund_transfer cAudit cOuter cFail today customer_id request
      txnId failTxnId s

/-- Embeds `get_account_balance` (`services/transaction_services.py`): one
query filtering on both the account number and the requesting
customer, a 404 if it returns nothing, then today's tracker value (or
zero) — no tracker is created.  The state component of the result is
the committed state after the call. -/
def get_account_balance (today : Nat) (customer_id account_number : String)
    (s : BankState) : (Except TransferError (Account × ℚ)) × BankState :=
  match s.accounts.find?
      (fun a => a.account_number == account_number &&
        a.customer_id == customer_id) with
  | none => (.error .accountNotFound, s)
  | some account =>
    let daily_usage :=
      match findTracker s.trackers account.account_id today with
      | some tracker => tracker.transacted_amount
      | none => 0
    (.ok (account, daily_usage), s)

/-- The `AccountBalanceResponse` model (`models/transaction_models.py`). -/
structure AccountBalanceResponse where
  account_number : String
  current_balance : ℚ
  daily_transfer_limit : ℚ
  daily_transacted_amount_today : ℚ
deriving DecidableEq, Repr

/-- The `/customer/balance/{account_number}` read path
(`controller/transaction_controller.py` over `get_account_balance`):
it fills `daily_transfer_limit` with the global constant. -/
def get_balance (today : Nat) (customer_id account_number : String)
    (s : BankState) : (Except TransferError AccountBalanceResponse) × BankState :=
  match get_account_balance today customer_id account_number s with
  | (.error e, s1) => (.error e, s1)
  | (.ok (account, daily_usage), s1) =>
    (.ok ⟨account.account_number, account.current_balance,
      DAILY_TRANSFER_LIMIT, daily_usage⟩, s1)

/-- Balance of the first account row carrying a number, zero if there
is none: the observation the claims about balances are phrased in. -/
def balOf (s : BankState) (n : String) : ℚ :=
  match findAccount s.accounts n with
  | some a => a.current_balance
  | none => 0

/-- Tracker total for `(aid, d)` in a tracker table, zero if no row
exists. -/
def trackerAmtL (trackers : List DailyLimitTracker) (aid : String) (d : Nat) : ℚ :=
  match findTracker trackers aid d with
  | some t => t.transacted_amount
  | none => 0

/-- Tracker total for `(aid, d)` in a state, zero if no row exists. -/
def trackerAmtOf (s : BankState) (aid : String) (d : Nat) : ℚ :=
  trackerAmtL s.trackers aid d

/-- Whether a `Transaction` row counts towards the daily total of
`(aid, d)`: a Success Transfer with source `aid` on date `d`. -/
def countsFor (aid : String) (d : Nat) (t : Transaction) : Bool :=
  t.source_account_id == aid && t.tdate == d &&
    t.transaction_type == TransactionType.TRANSFER &&
    t.tstatus == TransactionStatus.SUCCESS

/-- Sum of the amounts of all Success `Transfer` rows with source
`aid` on date `d` in a transaction table. -/
def sumSuccessL (l : List Transaction) (aid : String) (d : Nat) : ℚ :=
  ((l.filter (countsFor aid d)).map (fun t => t.amount)).sum

/-- Sum of the amounts of all Success `Transfer` transactions with
source `aid` on date `d`. -/
def sumSuccessTransfers (s : BankState) (aid : String) (d : Nat) : ℚ :=
  sumSuccessL s.transactions aid d

/-! ## Arithmetic of the rounding boundary -/

theorem roundHalfUp2_eq_self {q : ℚ} (h0 : 0 ≤ q) (hden : (q * 100).den = 1) :
    roundHalfUp2 q = q := by
  have hq : ((q * 100).num : ℚ) = q * 100 := (Rat.den_eq_one_iff (q * 100)).mp hden
  have hfl : ⌊q * 100 + 1 / 2⌋ = (q * 100).num := by
    rw [← hq, Int.floor_int_add]
    norm_num
  unfold roundHalfUp2
  rw [if_pos h0, hfl, hq]
  field_simp

theorem roundHalfUp2_natCast (n : ℕ) : roundHalfUp2 (n : ℚ) = n := by
  apply roundHalfUp2_eq_self (by positivity)
  have h : ((n : ℚ) * 100) = ((n * 100 : ℕ) : ℚ) := by push_cast; ring
  rw [h, Rat.den_natCast]

theorem roundHalfUp2_div100 (n : ℕ) :
    roundHalfUp2 ((n : ℚ) / 100) = (n : ℚ) / 100 := by
  apply roundHalfUp2_eq_self (by positivity)
  have h : ((n : ℚ) / 100 * 100) = ((n : ℕ) : ℚ) := by field_simp
  rw [h, Rat.den_natCast]

theorem roundHalfUp2_zero : roundHalfUp2 0 = 0 := by
  simpa using roundHalfUp2_natCast 0

theorem roundHalfUp2_of_validAmount {q : ℚ} (h : validAmount q) :
    roundHalfUp2 q = q :=
  roundHalfUp2_eq_self h.1.le h.2.1

theorem roundHalfUp2_pos_of_validAmount {q : ℚ} (h : validAmount q) :
    0 < roundHalfUp2 q := by
  rw [roundHalfUp2_of_validAmount h]
  exact h.1

/-! ## Row-level lemmas: queries against in-session mutations -/

theorem findAccount_updFirstBalance_self (l : List Account) (n : String) (d : ℚ) :
    findAccount (updFirstBalance l n d) n =
      (findAccount l n).map
        (fun a => { a with current_balance := a.current_balance + d }) := by
  induction l with
  | nil => rfl
  | cons a rest ih =>
    by_cases h : a.account_number = n
    · simp [findAccount, updFirstBalance, List.find?_cons, h]
    · have hb : (a.account_number == n) = false := by simp [h]
      simp only [findAccount] at ih
      simp [findAccount, updFirstBalance, List.find?_cons, hb, ih]

theorem findAccount_updFirstBalance_ne (l : List Account) (n m : String)
    (d : ℚ) (hnm : m ≠ n) :
    findAccount (updFirstBalance l n d) m = findAccount l m := by
  induction l with
  | nil => rfl
  | cons a rest ih =>
    by_cases h : a.account_number = n
    · have hm : (n == m) = false := by
        simp only [beq_eq_false_iff_ne, ne_eq]
        exact fun e => hnm e.symm
      simp [findAccount, updFirstBalance, List.find?_cons, h, hm]
    · have hb : (a.account_number == n) = false := by simp [h]
      simp only [findAccount] at ih
      simp [findAccount, updFirstBalance, List.find?_cons, hb, ih]

theorem balOf_state_accounts (s : BankState) (accounts : List Account)
    (trackers : List DailyLimitTracker) (transactions : List Transaction)
    (audits : List AuditEntry) (n : String) :
    balOf { accounts := accounts, trackers := trackers,
            transactions := transactions, audits := audits } n =
      balOf { s with accounts := accounts } n := by
  rfl

theorem findTracker_setFirstTracker_self (l : List DailyLimitTracker)
    (aid : String) (d : Nat) (v : ℚ) :
    findTracker (setFirstTracker l aid d v) aid d =
      (findTracker l aid d).map (fun t => { t with transacted_amount := v }) := by
  induction l with
  | nil => rfl
  | cons t rest ih =>
    by_cases hk : t.account_id = aid ∧ t.transaction_date = d
    · have hkb : (t.account_id == aid && t.transaction_date == d) = true := by
        simp [hk.1, hk.2]
      simp [findTracker, setFirstTracker, List.find?_cons, hkb]
    · have hkb : (t.account_id == aid && t.transaction_date == d) = false := by
        rw [Bool.and_eq_false_iff]
        rcases not_and_or.mp hk with h | h
        · exact Or.inl (beq_eq_false_iff_ne.mpr h)
        · exact Or.inr (beq_eq_false_iff_ne.mpr h)
      simp only [findTracker] at ih
      simp [findTracker, setFirstTracker, List.find?_cons, hkb, ih]

theorem findTracker_setFirstTracker_ne (l : List DailyLimitTracker)
    (aid : String) (d : Nat) (v : ℚ) (aid2 : String) (d2 : Nat)
    (h : ¬(aid2 = aid ∧ d2 = d)) :
    findTracker (setFirstTracker l aid d v) aid2 d2 = findTracker l aid2 d2 := by
  induction l with
  | nil => rfl
  | cons t rest ih =>
    by_cases hk : t.account_id = aid ∧ t.transaction_date = d
    · have hkb : (t.account_id == aid && t.transaction_date == d) = true := by
        simp [hk.1, hk.2]
      have hp : (t.account_id == aid2 && t.transaction_date == d2) = false := by
        rw [Bool.and_eq_false_iff]
        rcases not_and_or.mp h with hh | hh
        · exact Or.inl (beq_eq_false_iff_ne.mpr fun e => hh (hk.1.symm.trans e).symm)
        · exact Or.inr (beq_eq_false_iff_ne.mpr fun e => hh (hk.2.symm.trans e).symm)
      simp [findTracker, setFirstTracker, List.find?_cons, hkb, hp]
    · have hkb : (t.account_id == aid && t.transaction_date == d) = false := by
        rw [Bool.and_eq_false_iff]
        rcases not_and_or.mp hk with hh | hh
        · exact Or.inl (beq_eq_false_iff_ne.mpr hh)
        · exact Or.inr (beq_eq_false_iff_ne.mpr hh)
      simp only [findTracker] at ih
      simp [findTracker, setFirstTracker, List.find?_cons, hkb, ih]

theorem findTracker_append_one (l : List DailyLimitTracker)
    (x : DailyLimitTracker) (aid : String) (d : Nat) :
    findTracker (l ++ [x]) aid d =
      ((findTracker l aid d).or ((if x.account_id == aid && x.transaction_date == d then some x else none))) := by
  unfold findTracker
  rw [List.find?_append]
  congr 1
  cases hb : (x.account_id == aid && x.transaction_date == d) <;>
    simp [List.find?_cons, hb]

theorem get_daily_tracker_fst (l : List DailyLimitTracker) (aid : String)
    (d : Nat) : (get_daily_tracker l aid d).1 = trackerAmtL l aid d := by
  unfold get_daily_tracker trackerAmtL
  cases findTracker l aid d <;> rfl

theorem findTracker_gdt_self (l : List DailyLimitTracker) (aid : String)
    (d : Nat) :
    ∃ t, findTracker (get_daily_tracker l aid d).2 aid d = some t ∧
      t.transacted_amount = (get_daily_tracker l aid d).1 := by
  unfold get_daily_tracker
  cases hf : findTracker l aid d with
  | some t => exact ⟨t, hf, rfl⟩
  | none =>
    refine ⟨⟨aid, d, 0⟩, ?_, rfl⟩
    rw [findTracker_append_one, hf]
    simp

theorem findTracker_gdt_ne (l : List DailyLimitTracker) (aid : String)
    (d : Nat) (aid2 : String) (d2 : Nat) (h : ¬(aid2 = aid ∧ d2 = d)) :
    findTracker (get_daily_tracker l aid d).2 aid2 d2 = findTracker l aid2 d2 := by
  unfold get_daily_tracker
  cases hf : findTracker l aid d with
  | some t => rfl
  | none =>
    simp only
    rw [findTracker_append_one]
    have hb : (aid == aid2 && (d == d2 : Bool)) = false := by
      rw [Bool.and_eq_false_iff]
      rcases not_and_or.mp h with hh | hh
      · exact Or.inl (beq_eq_false_iff_ne.mpr fun e => hh e.symm)
      · exact Or.inr (beq_eq_false_iff_ne.mpr fun e => hh e.symm)
    simp [hb]

theorem trackerAmtL_set_gdt_self (l : List DailyLimitTracker) (aid : String)
    (d : Nat) (v : ℚ) :
    trackerAmtL
      (setFirstTracker (get_daily_tracker l aid d).2 aid d v) aid d = v := by
  obtain ⟨t, ht, -⟩ := findTracker_gdt_self l aid d
  unfold trackerAmtL
  rw [findTracker_setFirstTracker_self, ht]
  rfl

theorem trackerAmtL_set_gdt_ne (l : List DailyLimitTracker) (aid : String)
    (d : Nat) (v : ℚ) (aid2 : String) (d2 : Nat) (h : ¬(aid2 = aid ∧ d2 = d)) :
    trackerAmtL
      (setFirstTracker (get_daily_tracker l aid d).2 aid d v) aid2 d2 =
      trackerAmtL l aid2 d2 := by
  unfold trackerAmtL
  rw [findTracker_setFirstTracker_ne _ _ _ _ _ _ h, findTracker_gdt_ne _ _ _ _ _ h]

theorem updFirstBalance_nonneg (l : List Account) (n : String) (d : ℚ)
    (h0 : ∀ a ∈ l, 0 ≤ a.current_balance)
    (hupd : ∀ a, findAccount l n = some a → 0 ≤ a.current_balance + d) :
    ∀ a ∈ updFirstBalance l n d, 0 ≤ a.current_balance := by
  induction l with
  | nil => intro a ha; cases ha
  | cons x rest ih =>
    intro a ha
    by_cases hx : x.account_number = n
    · have hb : (x.account_number == n) = true := by simp [hx]
      unfold updFirstBalance at ha
      rw [hb] at ha
      simp only [if_true] at ha
      rcases List.mem_cons.mp ha with rfl | hmem
      · exact hupd x (by simp [findAccount, List.find?_cons, hb])
      · exact h0 a (List.mem_cons_of_mem x hmem)
    · have hb : (x.account_number == n) = false := by simp [hx]
      unfold updFirstBalance at ha
      rw [hb] at ha
      simp only [Bool.false_eq_true, if_false] at ha
      rcases List.mem_cons.mp ha with rfl | hmem
      · exact h0 a (List.mem_cons_self a rest)
      · refine ih (fun b hb2 => h0 b (List.mem_cons_of_mem x hb2)) ?_ a hmem
        intro b hfind
        refine hupd b ?_
        simp [findAccount, List.find?_cons, hb]
        exact hfind

theorem findAccount_mem {l : List Account} {n : String} {a : Account}
    (h : findAccount l n = some a) : a ∈ l :=
  List.mem_of_find?_eq_some h

/-! ## End-state characterization of `process_fund_transfer` -/

/-- The state that the one real commit of the success path (the
`db.commit()` inside `create_audit_log`) publishes: both balance
mutations, the tracker update, the Success `Transaction` row, and the
audit row, atomically. -/
def successState (today : Nat) (cid : String) (req : TransactionRequest)
    (tid : String) (src tgt : Account) (s : BankState) : BankState :=
  { accounts := updFirstBalance
      (updFirstBalance s.accounts req.source_account_number
        (-(roundHalfUp2 req.amount)))
      req.target_account_number (roundHalfUp2 req.amount),
    trackers := setFirstTracker
      (get_daily_tracker s.trackers src.account_id today).2
      src.account_id today
      ((get_daily_tracker s.trackers src.account_id today).1 +
        roundHalfUp2 req.amount),
    transactions := s.transactions ++
      [⟨tid, src.account_id, tgt.account_id, roundHalfUp2 req.amount,
        .TRANSFER, today, .SUCCESS⟩],
    audits := s.audits ++
      [⟨some cid, true, req.source_account_number,
        req.target_account_number, roundHalfUp2 req.amount, some tid⟩] }

/-- The best-effort Failed record of the `except` branch, committed on
top of `base`. -/
def failRecordState (today : Nat) (cid : String) (req : TransactionRequest)
    (ftid : String) (src tgt : Account) (base : BankState) : BankState :=
  { base with
    transactions := base.transactions ++
      [⟨ftid, src.account_id, tgt.account_id, roundHalfUp2 req.amount,
        .TRANSFER, today, .FAILED⟩],
    audits := base.audits ++
      [⟨some cid, false, req.source_account_number,
        req.target_account_number, roundHalfUp2 req.amount, none⟩] }

theorem process_sourceNotFound (cA cO cF : Bool) (today : Nat) (cid : String)
    (req : TransactionRequest) (tid ftid : String) (s : BankState)
    (hsrc : findAccount s.accounts req.source_account_number = none) :
    process_fund_transfer cA cO cF today cid req tid ftid s =
      (.err .sourceNotFound, s) := by
  simp [process_fund_transfer, hsrc]

theorem process_targetNotFound (cA cO cF : Bool) (today : Nat) (cid : String)
    (req : TransactionRequest) (tid ftid : String) (s : BankState)
    (src : Account)
    (hsrc : findAccount s.accounts req.source_account_number = some src)
    (htgt : findAccount s.accounts req.target_account_number = none) :
    process_fund_transfer cA cO cF today cid req tid ftid s =
      (.err .targetNotFound, s) := by
  simp [process_fund_transfer, hsrc, htgt]

theorem process_forbidden (cA cO cF : Bool) (today : Nat) (cid : String)
    (req : TransactionRequest) (tid ftid : String) (s : BankState)
    (src tgt : Account)
    (hsrc : findAccount s.accounts req.source_account_number = some src)
    (htgt : findAccount s.accounts req.target_account_number = some tgt)
    (hown : src.customer_id ≠ cid) :
    process_fund_transfer cA cO cF today cid req tid ftid s =
      (.err .forbidden, s) := by
  simp [process_fund_transfer, hsrc, htgt, hown]

theorem process_dailyLimitExceeded (cA cO cF : Bool) (today : Nat)
    (cid : String) (req : TransactionRequest) (tid ftid : String)
    (s : BankState) (src tgt : Account)
    (hsrc : findAccount s.accounts req.source_account_number = some src)
    (htgt : findAccount s.accounts req.target_account_number = some tgt)
    (hown : src.customer_id = cid)
    (hlim : DAILY_TRANSFER_LIMIT <
      trackerAmtL s.trackers src.account_id today + roundHalfUp2 req.amount) :
    process_fund_transfer cA cO cF today cid req tid ftid s =
      (.err .dailyLimitExceeded, s) := by
  have hlim2 : (get_daily_tracker s.trackers src.account_id today).1 +
      roundHalfUp2 req.amount > DAILY_TRANSFER_LIMIT := by
    rw [get_daily_tracker_fst]
    exact hlim
  simp [process_fund_transfer, hsrc, htgt, hown, hlim2]

theorem process_insufficientFunds (cA cO cF : Bool) (today : Nat)
    (cid : String) (req : TransactionRequest) (tid ftid : String)
    (s : BankState) (src tgt : Account)
    (hsrc : findAccount s.accounts req.source_account_number = some src)
    (htgt : findAccount s.accounts req.target_account_number = some tgt)
    (hown : src.customer_id = cid)
    (hlim : trackerAmtL s.trackers src.account_id today +
      roundHalfUp2 req.amount ≤ DAILY_TRANSFER_LIMIT)
    (hbal : src.current_balance < roundHalfUp2 req.amount) :
    process_fund_transfer cA cO cF today cid req tid ftid s =
      (.err .insufficientFunds, s) := by
  have hlim2 : ¬((get_daily_tracker s.trackers src.account_id today).1 +
      roundHalfUp2 req.amount > DAILY_TRANSFER_LIMIT) := by
    rw [get_daily_tracker_fst]
    exact not_lt.mpr hlim
  simp [process_fund_transfer, hsrc, htgt, hown, hlim2, hbal]

theorem process_validated_eq (cA cO cF : Bool) (today : Nat) (cid : String)
    (req : TransactionRequest) (tid ftid : String) (s : BankState)
    (src tgt : Account)
    (hsrc : findAccount s.accounts req.source_account_number = some src)
    (htgt : findAccount s.accounts req.target_account_number = some tgt)
    (hown : src.customer_id = cid)
    (hlim : trackerAmtL s.trackers src.account_id today +
      roundHalfUp2 req.amount ≤ DAILY_TRANSFER_LIMIT)
    (hbal : roundHalfUp2 req.amount ≤ src.current_balance) :
    process_fund_transfer cA cO cF today cid req tid ftid s =
      ((if cO then .ok tid else .err .internalError),
        (if cO then
          (if cA then successState today cid req tid src tgt s else s)
        else
          (if cF then
            failRecordState today cid req ftid src tgt
              (if cA then successState today cid req tid src tgt s else s)
          else
            (if cA then successState today cid req tid src tgt s else s)))) := by
  have hlim2 : ¬((get_daily_tracker s.trackers src.account_id today).1 +
      roundHalfUp2 req.amount > DAILY_TRANSFER_LIMIT) := by
    rw [get_daily_tracker_fst]
    exact not_lt.mpr hlim
  have hbal2 : ¬(src.current_balance < roundHalfUp2 req.amount) :=
    not_lt.mpr hbal
  simp only [process_fund_transfer, hsrc, htgt, ne_eq, hown,
    not_true_eq_false, if_false, gt_iff_lt, not_lt.mp hlim2, hbal2,
    ite_false, ite_true]
  cases cA <;> cases cO <;> cases cF <;>
    simp [create_audit_log, successState, failRecordState,
      get_daily_tracker_fst, trackerAmtL, hlim2, hbal2, not_lt.mp hlim2]
  all_goals exact hlim

theorem sumSuccessL_append_one (l : List Transaction) (row : Transaction)
    (aid : String) (d : Nat) :
    sumSuccessL (l ++ [row]) aid d =
      sumSuccessL l aid d + (if countsFor aid d row then row.amount else 0) := by
  unfold sumSuccessL
  rw [List.filter_append]
  cases h : countsFor aid d row <;>
    simp [List.filter_cons, h]

theorem countsFor_success_row (srcId tgtId : String) (a : ℚ)
    (tid : String) (today : Nat) (aid : String) (d : Nat) :
    countsFor aid d
        ⟨tid, srcId, tgtId, a, .TRANSFER, today, .SUCCESS⟩ =
      (srcId == aid && today == d) := by
  simp [countsFor]

theorem countsFor_failed_row (srcId tgtId : String) (a : ℚ)
    (ftid : String) (today : Nat) (aid : String) (d : Nat) :
    countsFor aid d
        ⟨ftid, srcId, tgtId, a, .TRANSFER, today, .FAILED⟩ = false := by
  simp [countsFor]

/-! ## The full route pipeline -/

theorem transfer_invalid (cA cO cF : Bool) (today : Nat)
    (cid srcN tgtN : String) (amount : ℚ) (tid ftid : String) (s : BankState)
    (h : ¬ validAmount amount) :
    transfer cA cO cF today cid srcN tgtN amount tid ftid s =
      (.err .invalidAmount, s) := by
  simp [transfer, mkTransactionRequest, h]

theorem transfer_eq_process (cA cO cF : Bool) (today : Nat)
    (cid srcN tgtN : String) (amount : ℚ) (tid ftid : String) (s : BankState)
    (h : validAmount amount) :
    transfer cA cO cF today cid srcN tgtN amount tid ftid s =
      process_fund_transfer cA cO cF today cid ⟨srcN, tgtN, amount⟩
        tid ftid s := by
  simp [transfer, mkTransactionRequest, h]

/-- Complete case analysis of a `process_fund_transfer` call: either a
deterministic pre-mutation rejection leaving the committed state
untouched, or the validated branch, whose outcome and final state are
functions of the commit oracle. -/
theorem process_outcome_cases (cA cO cF : Bool) (today : Nat) (cid : String)
    (req : TransactionRequest) (tid ftid : String) (s : BankState) :
    (∃ e, e ≠ TransferError.internalError ∧
      process_fund_transfer cA cO cF today cid req tid ftid s = (.err e, s)) ∨
    (∃ src tgt,
      findAccount s.accounts req.source_account_number = some src ∧
      findAccount s.accounts req.target_account_number = some tgt ∧
      src.customer_id = cid ∧
      trackerAmtL s.trackers src.account_id today + roundHalfUp2 req.amount ≤
        DAILY_TRANSFER_LIMIT ∧
      roundHalfUp2 req.amount ≤ src.current_balance ∧
      process_fund_transfer cA cO cF today cid req tid ftid s =
        ((if cO then .ok tid else .err .internalError),
          (if cO then
            (if cA then successState today cid req tid src tgt s else s)
          else
            (if cF then
              failRecordState today cid req ftid src tgt
                (if cA then successState today cid req tid src tgt s else s)
            else
              (if cA then successState today cid req tid src tgt s else s))))) := by
  cases h1 : findAccount s.accounts req.source_account_number with
  | none =>
    exact Or.inl ⟨.sourceNotFound, by simp,
      process_sourceNotFound cA cO cF today cid req tid ftid s h1⟩
  | some src =>
    cases h2 : findAccount s.accounts req.target_account_number with
    | none =>
      exact Or.inl ⟨.targetNotFound, by simp,
        process_targetNotFound cA cO cF today cid req tid ftid s src h1 h2⟩
    | some tgt =>
      by_cases h3 : src.customer_id = cid
      · by_cases h4 : DAILY_TRANSFER_LIMIT <
            trackerAmtL s.trackers src.account_id today + roundHalfUp2 req.amount
        · exact Or.inl ⟨.dailyLimitExceeded, by simp,
            process_dailyLimitExceeded cA cO cF today cid req tid ftid s src tgt
              h1 h2 h3 h4⟩
        · by_cases h5 : src.current_balance < roundHalfUp2 req.amount
          · exact Or.inl ⟨.insufficientFunds, by simp,
              process_insufficientFunds cA cO cF today cid req tid ftid s src tgt
                h1 h2 h3 (not_lt.mp h4) h5⟩
          · exact Or.inr ⟨src, tgt, rfl, rfl, h3, not_lt.mp h4, not_lt.mp h5,
              process_validated_eq cA cO cF today cid req tid ftid s src tgt
                h1 h2 h3 (not_lt.mp h4) (not_lt.mp h5)⟩
      · exact Or.inl ⟨.forbidden, by simp,
          process_forbidden cA cO cF today cid req tid ftid s src tgt h1 h2 h3⟩

/-! ## Claim theorems -/

/-- C6: a transfer request whose amount rounds (half-up, 2 decimal
places) to a non-positive value is rejected as `InvalidAmount` — by
the pydantic constraints of `TransactionRequest`, before the service
layer runs — and the committed state is completely unchanged: no
balance change and no tracker change. -/
theorem nonpositive_amount_rejected (cA cO cF : Bool) (today : Nat)
    (cid srcN tgtN : String) (amount : ℚ) (tid ftid : String) (s : BankState)
    (h : roundHalfUp2 amount ≤ 0) :
    transfer cA cO cF today cid srcN tgtN amount tid ftid s =
      (.err .invalidAmount, s) := by
  apply transfer_invalid
  intro hv
  exact absurd (roundHalfUp2_pos_of_validAmount hv) (not_lt.mpr h)

/-- Witness for C6 at a concrete input: an amount of `0` is rejected
with `InvalidAmount` and the (empty) state survives unchanged. -/
theorem nonpositive_amount_rejected_witness :
    transfer true true true 0 "c1" "N1" "N2" 0 "t1" "f1" ⟨[], [], [], []⟩ =
      (.err .invalidAmount, (⟨[], [], [], []⟩ : BankState)) :=
  nonpositive_amount_rejected true true true 0 "c1" "N1" "N2" 0 "t1" "f1"
    ⟨[], [], [], []⟩ (by simp [roundHalfUp2_zero])

/-- C9 (amended): the balance read fails with the combined
`AccountNotFound` error both when no account with the given number
exists and when it exists but belongs to a different customer (the
code filters on number and customer in one query and raises a single
404, not a distinct `Forbidden`); on success it returns the balance,
the global daily limit, and today's tracker value or zero, and the
committed state — in particular the tracker table — is exactly the
input state. -/
theorem get_balance_rule (today : Nat) (cid n : String) (s : BankState) :
    ((∀ acc ∈ s.accounts, ¬(acc.account_number = n ∧ acc.customer_id = cid)) →
      (get_balance today cid n s).1 = .error .accountNotFound) ∧
    (∀ acc, s.accounts.find?
        (fun a => a.account_number == n && a.customer_id == cid) = some acc →
      (get_balance today cid n s).1 =
        .ok ⟨acc.account_number, acc.current_balance, DAILY_TRANSFER_LIMIT,
          trackerAmtOf s acc.account_id today⟩) ∧
    (get_balance today cid n s).2 = s := by
  refine ⟨?_, ?_, ?_⟩
  · intro h
    have hnone : s.accounts.find?
        (fun a => a.account_number == n && a.customer_id == cid) = none := by
      rw [List.find?_eq_none]
      intro a ha
      simp only [Bool.and_eq_true, beq_iff_eq]
      exact fun hc => h a ha hc
    simp [get_balance, get_account_balance, hnone]
  · intro acc hf
    simp only [get_balance, get_account_balance, hf]
    unfold trackerAmtOf trackerAmtL
    cases findTracker s.trackers acc.account_id today <;> rfl
  · unfold get_balance get_account_balance
    cases s.accounts.find?
        (fun a => a.account_number == n && a.customer_id == cid) <;> rfl

/-- Witness for C9 at concrete inputs: the owner's read succeeds with
balance, limit and zero daily usage; a stranger's read of a missing
number is a 404; and the state is returned unchanged. -/
theorem get_balance_rule_witness :
    (get_balance 0 "c1" "N1"
        ⟨[⟨"a1", "c1", "N1", 100⟩], [], [], []⟩).1 =
      .ok ⟨"N1", 100, DAILY_TRANSFER_LIMIT,
        trackerAmtOf ⟨[⟨"a1", "c1", "N1", 100⟩], [], [], []⟩ "a1" 0⟩ ∧
    (get_balance 0 "c9" "NX"
        ⟨[⟨"a1", "c1", "N1", 100⟩], [], [], []⟩).1 =
      .error .accountNotFound ∧
    (get_balance 0 "c1" "N1"
        ⟨[⟨"a1", "c1", "N1", 100⟩], [], [], []⟩).2 =
      ⟨[⟨"a1", "c1", "N1", 100⟩], [], [], []⟩ :=
  ⟨(get_balance_rule 0 "c1" "N1" ⟨[⟨"a1", "c1", "N1", 100⟩], [], [], []⟩).2.1
      ⟨"a1", "c1", "N1", 100⟩ rfl,
    (get_balance_rule 0 "c9" "NX" ⟨[⟨"a1", "c1", "N1", 100⟩], [], [], []⟩).1
      (by
        intro acc hacc hc
        obtain rfl := List.mem_singleton.mp hacc
        exact absurd hc.1 (by decide)),
    (get_balance_rule 0 "c1" "N1" ⟨[⟨"a1", "c1", "N1", 100⟩], [], [], []⟩).2.2⟩

/-- Counterexample to C9 as stated: an account that exists (`N1`,
owned by `custA`) read by a different customer (`custB`) is rejected
with the same `AccountNotFound` 404, not the distinct `Forbidden`
error the claim promises. -/
theorem get_balance_forbidden_cex :
    (get_balance 0 "custB" "N1"
        ⟨[⟨"a1", "custA", "N1", 100⟩], [], [], []⟩).1 =
      .error .accountNotFound ∧
    (get_balance 0 "custB" "N1"
        ⟨[⟨"a1", "custA", "N1", 100⟩], [], [], []⟩).1 ≠
      .error .forbidden := by
  refine ⟨rfl, ?_⟩
  intro h
  have h2 : (Except.error TransferError.accountNotFound :
      Except TransferError AccountBalanceResponse) =
      Except.error TransferError.forbidden := h
  injection h2 with h3
  exact absurd h3 (by decide)

/-- C5 (code bug, demonstrated at the failing input): a transfer of 50
from `N1` (balance 100) to `N2` that passes every validation, whose
only storage failure is that the `db.commit()` issued inside
`create_audit_log` raises.  Because `create_audit_log` shares the
caller's session — despite its docstring's promise to commit
independently — its `except` branch rolls back the debit, the credit,
the tracker update and the Success `Transaction` row together with the
audit row, swallows the exception, and `process_fund_transfer` still
returns the transaction id: the caller is told the transfer succeeded
while the committed business state is exactly the input state. -/
theorem audit_commit_failure_rolls_back_business :
    transfer false true true 0 "c1" "N1" "N2" 50 "t1" "f1"
        ⟨[⟨"a1", "c1", "N1", 100⟩, ⟨"a2", "c2", "N2", 0⟩], [], [], []⟩ =
      (.ok "t1",
        (⟨[⟨"a1", "c1", "N1", 100⟩, ⟨"a2", "c2", "N2", 0⟩], [], [], []⟩ :
          BankState)) := by
  have hv : validAmount 50 := ⟨by norm_num, by norm_num, by norm_num⟩
  have hround : roundHalfUp2 ((50 : ℚ)) = 50 :=
    roundHalfUp2_eq_self (by norm_num) (by norm_num)
  rw [transfer_eq_process false true true 0 "c1" "N1" "N2" 50 "t1" "f1" _ hv]
  rw [process_validated_eq false true true 0 "c1" ⟨"N1", "N2", 50⟩ "t1" "f1"
    ⟨[⟨"a1", "c1", "N1", 100⟩, ⟨"a2", "c2", "N2", 0⟩], [], [], []⟩
    ⟨"a1", "c1", "N1", 100⟩ ⟨"a2", "c2", "N2", 0⟩ rfl rfl rfl
    (by
      show trackerAmtL [] "a1" 0 + roundHalfUp2 (50 : ℚ) ≤ DAILY_TRANSFER_LIMIT
      rw [hround]
      norm_num [trackerAmtL, findTracker, DAILY_TRANSFER_LIMIT])
    (by
      show roundHalfUp2 (50 : ℚ) ≤ (100 : ℚ)
      rw [hround]
      norm_num)]
  simp

/-- C2: for a transfer request that resolves both accounts and passes
the ownership check, the call fails with `DailyLimitExceeded` exactly
when the source's daily tracker total plus the rounded amount strictly
exceeds `DAILY_TRANSFER_LIMIT = 50000.00`; that rejection leaves the
committed state (balances and tracker) untouched; and when the limit
admits the amount (and the balance suffices, with the commit
succeeding) the call is accepted and the tracker total becomes exactly
the old total plus the rounded amount. -/
theorem daily_limit_boundary (cA cO cF : Bool) (today : Nat) (cid : String)
    (req : TransactionRequest) (tid ftid : String) (s : BankState)
    (src tgt : Account)
    (hsrc : findAccount s.accounts req.source_account_number = some src)
    (htgt : findAccount s.accounts req.target_account_number = some tgt)
    (hown : src.customer_id = cid) :
    ((process_fund_transfer cA cO cF today cid req tid ftid s).1 =
        .err .dailyLimitExceeded ↔
      DAILY_TRANSFER_LIMIT <
        trackerAmtOf s src.account_id today + roundHalfUp2 req.amount) ∧
    (DAILY_TRANSFER_LIMIT <
        trackerAmtOf s src.account_id today + roundHalfUp2 req.amount →
      (process_fund_transfer cA cO cF today cid req tid ftid s).2 = s) ∧
    (trackerAmtOf s src.account_id today + roundHalfUp2 req.amount ≤
        DAILY_TRANSFER_LIMIT →
      roundHalfUp2 req.amount ≤ src.current_balance →
      (process_fund_transfer true true cF today cid req tid ftid s).1 =
        .ok tid ∧
      trackerAmtOf
          (process_fund_transfer true true cF today cid req tid ftid s).2
          src.account_id today =
        trackerAmtOf s src.account_id today + roundHalfUp2 req.amount) := by
  by_cases hgt : DAILY_TRANSFER_LIMIT <
      trackerAmtOf s src.account_id today + roundHalfUp2 req.amount
  · have heq := process_dailyLimitExceeded cA cO cF today cid req tid ftid s
      src tgt hsrc htgt hown hgt
    exact ⟨⟨fun _ => hgt, fun _ => by rw [heq]⟩,
      fun _ => by rw [heq],
      fun hle _ => absurd hgt (not_lt.mpr hle)⟩
  · have hle := not_lt.mp hgt
    refine ⟨⟨?_, fun hgt2 => absurd hgt2 hgt⟩,
      fun hgt2 => absurd hgt2 hgt, ?_⟩
    · intro hh
      exfalso
      by_cases hbal : src.current_balance < roundHalfUp2 req.amount
      · rw [process_insufficientFunds cA cO cF today cid req tid ftid s src tgt
          hsrc htgt hown hle hbal] at hh
        simp at hh
      · rw [process_validated_eq cA cO cF today cid req tid ftid s src tgt
          hsrc htgt hown hle (not_lt.mp hbal)] at hh
        cases cO <;> simp at hh
    · intro _ hbal2
      have heq := process_validated_eq true true cF today cid req tid ftid s
        src tgt hsrc htgt hown hle hbal2
      rw [heq]
      refine ⟨rfl, ?_⟩
      show trackerAmtL (successState today cid req tid src tgt s).trackers
        src.account_id today = _
      unfold successState
      rw [trackerAmtL_set_gdt_self, get_daily_tracker_fst]
      rfl

/-- Witness for C2 at the spec's concrete boundary: tracker at
49999.00, balance 100: an attempt of 2.00 is rejected with
`DailyLimitExceeded`, an attempt of 1.00 is accepted and the tracker
becomes exactly 50000.00. -/
theorem daily_limit_boundary_witness :
    (process_fund_transfer true true true 0 "c1" ⟨"N1", "N1", 2⟩ "t1" "f1"
        ⟨[⟨"a1", "c1", "N1", 100⟩], [⟨"a1", 0, 49999⟩], [], []⟩).1 =
      .err .dailyLimitExceeded ∧
    (process_fund_transfer true true true 0 "c1" ⟨"N1", "N1", 1⟩ "t2" "f2"
        ⟨[⟨"a1", "c1", "N1", 100⟩], [⟨"a1", 0, 49999⟩], [], []⟩).1 =
      .ok "t2" ∧
    trackerAmtOf
        (process_fund_transfer true true true 0 "c1" ⟨"N1", "N1", 1⟩ "t2" "f2"
          ⟨[⟨"a1", "c1", "N1", 100⟩], [⟨"a1", 0, 49999⟩], [], []⟩).2
        "a1" 0 = 50000 := by
  have hr2 : roundHalfUp2 ((2 : ℚ)) = 2 :=
    roundHalfUp2_eq_self (by norm_num) (by norm_num)
  have hr1 : roundHalfUp2 ((1 : ℚ)) = 1 :=
    roundHalfUp2_eq_self (by norm_num) (by norm_num)
  have htr : trackerAmtOf
      ⟨[⟨"a1", "c1", "N1", 100⟩], [⟨"a1", 0, 49999⟩], [], []⟩ "a1" 0 =
      (49999 : ℚ) := rfl
  refine ⟨?_, ?_, ?_⟩
  · exact (daily_limit_boundary true true true 0 "c1" ⟨"N1", "N1", 2⟩ "t1" "f1"
      ⟨[⟨"a1", "c1", "N1", 100⟩], [⟨"a1", 0, 49999⟩], [], []⟩
      ⟨"a1", "c1", "N1", 100⟩ ⟨"a1", "c1", "N1", 100⟩ rfl rfl rfl).1.mpr
      (by rw [htr, hr2]; norm_num [DAILY_TRANSFER_LIMIT])
  · exact ((daily_limit_boundary true true true 0 "c1" ⟨"N1", "N1", 1⟩ "t2" "f2"
      ⟨[⟨"a1", "c1", "N1", 100⟩], [⟨"a1", 0, 49999⟩], [], []⟩
      ⟨"a1", "c1", "N1", 100⟩ ⟨"a1", "c1", "N1", 100⟩ rfl rfl rfl).2.2
      (by rw [htr, hr1]; norm_num [DAILY_TRANSFER_LIMIT])
      (by rw [hr1]; norm_num)).1
  · have h := ((daily_limit_boundary true true true 0 "c1" ⟨"N1", "N1", 1⟩
      "t2" "f2" ⟨[⟨"a1", "c1", "N1", 100⟩], [⟨"a1", 0, 49999⟩], [], []⟩
      ⟨"a1", "c1", "N1", 100⟩ ⟨"a1", "c1", "N1", 100⟩ rfl rfl rfl).2.2
      (by rw [htr, hr1]; norm_num [DAILY_TRANSFER_LIMIT])
      (by rw [hr1]; norm_num)).2
    rw [h, htr, hr1]
    norm_num

/-- C3: for a transfer request that resolves both accounts, passes the
ownership check and fits the daily limit, the call fails with
`InsufficientFunds` exactly when the source balance is strictly below
the rounded amount; that rejection leaves the committed state
untouched; and when the balance suffices (with the commit succeeding)
the call is accepted, the source balance becoming exactly the old
balance minus the rounded amount when the target is a different
account. -/
theorem insufficient_funds_boundary (cA cO cF : Bool) (today : Nat)
    (cid : String) (req : TransactionRequest) (tid ftid : String)
    (s : BankState) (src tgt : Account)
    (hsrc : findAccount s.accounts req.source_account_number = some src)
    (htgt : findAccount s.accounts req.target_account_number = some tgt)
    (hown : src.customer_id = cid)
    (hlim : trackerAmtOf s src.account_id today + roundHalfUp2 req.amount ≤
      DAILY_TRANSFER_LIMIT) :
    ((process_fund_transfer cA cO cF today cid req tid ftid s).1 =
        .err .insufficientFunds ↔
      src.current_balance < roundHalfUp2 req.amount) ∧
    (src.current_balance < roundHalfUp2 req.amount →
      (process_fund_transfer cA cO cF today cid req tid ftid s).2 = s) ∧
    (roundHalfUp2 req.amount ≤ src.current_balance →
      (process_fund_transfer true true cF today cid req tid ftid s).1 =
        .ok tid ∧
      (req.source_account_number ≠ req.target_account_number →
        balOf (process_fund_transfer true true cF today cid req tid ftid s).2
            req.source_account_number =
          src.current_balance - roundHalfUp2 req.amount)) := by
  by_cases hbal : src.current_balance < roundHalfUp2 req.amount
  · have heq := process_insufficientFunds cA cO cF today cid req tid ftid s
      src tgt hsrc htgt hown hlim hbal
    exact ⟨⟨fun _ => hbal, fun _ => by rw [heq]⟩,
      fun _ => by rw [heq],
      fun hge => absurd hbal (not_lt.mpr hge)⟩
  · refine ⟨⟨?_, fun h2 => absurd h2 hbal⟩, fun h2 => absurd h2 hbal, ?_⟩
    · intro hh
      exfalso
      rw [process_validated_eq cA cO cF today cid req tid ftid s src tgt
        hsrc htgt hown hlim (not_lt.mp hbal)] at hh
      cases cO <;> simp at hh
    · intro hge
      have heq := process_validated_eq true true cF today cid req tid ftid s
        src tgt hsrc htgt hown hlim hge
      rw [heq]
      refine ⟨rfl, ?_⟩
      intro hne
      show balOf (successState today cid req tid src tgt s)
        req.source_account_number = _
      unfold balOf successState
      rw [findAccount_updFirstBalance_ne _ _ _ _ hne,
        findAccount_updFirstBalance_self, hsrc]
      show src.current_balance + -roundHalfUp2 req.amount = _
      ring

/-- Witness for C3 at the spec's concrete boundary: balance 100.00: a
transfer of 100.01 is rejected with `InsufficientFunds`, a transfer of
100.00 is accepted and the source balance becomes 0.00. -/
theorem insufficient_funds_boundary_witness :
    (process_fund_transfer true true true 0 "c1" ⟨"N1", "N2", 10001 / 100⟩
        "t1" "f1"
        ⟨[⟨"a1", "c1", "N1", 100⟩, ⟨"a2", "c2", "N2", 0⟩], [], [], []⟩).1 =
      .err .insufficientFunds ∧
    (process_fund_transfer true true true 0 "c1" ⟨"N1", "N2", 100⟩ "t2" "f2"
        ⟨[⟨"a1", "c1", "N1", 100⟩, ⟨"a2", "c2", "N2", 0⟩], [], [], []⟩).1 =
      .ok "t2" ∧
    balOf
        (process_fund_transfer true true true 0 "c1" ⟨"N1", "N2", 100⟩ "t2"
          "f2"
          ⟨[⟨"a1", "c1", "N1", 100⟩, ⟨"a2", "c2", "N2", 0⟩], [], [], []⟩).2
        "N1" = 0 := by
  have hra : roundHalfUp2 ((10001 / 100 : ℚ)) = 10001 / 100 :=
    roundHalfUp2_eq_self (by norm_num) (by norm_num)
  have hrb : roundHalfUp2 ((100 : ℚ)) = 100 :=
    roundHalfUp2_eq_self (by norm_num) (by norm_num)
  have htr : trackerAmtOf
      ⟨[⟨"a1", "c1", "N1", 100⟩, ⟨"a2", "c2", "N2", 0⟩], [], [], []⟩
      "a1" 0 = (0 : ℚ) := rfl
  refine ⟨?_, ?_, ?_⟩
  · exact (insufficient_funds_boundary true true true 0 "c1"
      ⟨"N1", "N2", 10001 / 100⟩ "t1" "f1"
      ⟨[⟨"a1", "c1", "N1", 100⟩, ⟨"a2", "c2", "N2", 0⟩], [], [], []⟩
      ⟨"a1", "c1", "N1", 100⟩ ⟨"a2", "c2", "N2", 0⟩ rfl rfl rfl
      (by rw [htr, hra]; norm_num [DAILY_TRANSFER_LIMIT])).1.mpr
      (by rw [hra]; norm_num)
  · exact ((insufficient_funds_boundary true true true 0 "c1" ⟨"N1", "N2", 100⟩
      "t2" "f2"
      ⟨[⟨"a1", "c1", "N1", 100⟩, ⟨"a2", "c2", "N2", 0⟩], [], [], []⟩
      ⟨"a1", "c1", "N1", 100⟩ ⟨"a2", "c2", "N2", 0⟩ rfl rfl rfl
      (by rw [htr, hrb]; norm_num [DAILY_TRANSFER_LIMIT])).2.2
      (by rw [hrb])).1
  · have h := (((insufficient_funds_boundary true true true 0 "c1"
      ⟨"N1", "N2", 100⟩ "t2" "f2"
      ⟨[⟨"a1", "c1", "N1", 100⟩, ⟨"a2", "c2", "N2", 0⟩], [], [], []⟩
      ⟨"a1", "c1", "N1", 100⟩ ⟨"a2", "c2", "N2", 0⟩ rfl rfl rfl
      (by rw [htr, hrb]; norm_num [DAILY_TRANSFER_LIMIT])).2.2
      (by rw [hrb])).2) (by decide)
    rw [h, hrb]
    norm_num

/-- Counterexample to C1 as stated: a successful self-transfer (source
and target are the same account number `N1`, amount 10, every commit
succeeding).  The call returns the transaction id, yet the account's
balance is still 100: the source balance does not decrease by the
rounded amount, because the debit and the credit hit the same row. -/
theorem self_transfer_no_delta_cex :
    (process_fund_transfer true true true 0 "c1" ⟨"N1", "N1", 10⟩ "t1" "f1"
        ⟨[⟨"a1", "c1", "N1", 100⟩], [], [], []⟩).1 = .ok "t1" ∧
    balOf (process_fund_transfer true true true 0 "c1" ⟨"N1", "N1", 10⟩ "t1"
        "f1" ⟨[⟨"a1", "c1", "N1", 100⟩], [], [], []⟩).2 "N1" = 100 ∧
    ¬ (balOf (process_fund_transfer true true true 0 "c1" ⟨"N1", "N1", 10⟩
        "t1" "f1" ⟨[⟨"a1", "c1", "N1", 100⟩], [], [], []⟩).2 "N1" =
      balOf ⟨[⟨"a1", "c1", "N1", 100⟩], [], [], []⟩ "N1" -
        roundHalfUp2 10) := by
  have hr : roundHalfUp2 ((10 : ℚ)) = 10 :=
    roundHalfUp2_eq_self (by norm_num) (by norm_num)
  have heq := process_validated_eq true true true 0 "c1" ⟨"N1", "N1", 10⟩
    "t1" "f1" ⟨[⟨"a1", "c1", "N1", 100⟩], [], [], []⟩
    ⟨"a1", "c1", "N1", 100⟩ ⟨"a1", "c1", "N1", 100⟩ rfl rfl rfl
    (by
      show trackerAmtL [] "a1" 0 + roundHalfUp2 (10 : ℚ) ≤ DAILY_TRANSFER_LIMIT
      rw [hr]
      norm_num [trackerAmtL, findTracker, DAILY_TRANSFER_LIMIT])
    (by rw [hr]; norm_num)
  have hbal : balOf (process_fund_transfer true true true 0 "c1"
      ⟨"N1", "N1", 10⟩ "t1" "f1"
      ⟨[⟨"a1", "c1", "N1", 100⟩], [], [], []⟩).2 "N1" = 100 := by
    rw [heq]
    show balOf (successState 0 "c1" ⟨"N1", "N1", 10⟩ "t1"
      ⟨"a1", "c1", "N1", 100⟩ ⟨"a1", "c1", "N1", 100⟩
      ⟨[⟨"a1", "c1", "N1", 100⟩], [], [], []⟩) "N1" = 100
    unfold balOf successState
    rw [findAccount_updFirstBalance_self, findAccount_updFirstBalance_self]
    show (100 : ℚ) + -roundHalfUp2 10 + roundHalfUp2 10 = 100
    ring
  refine ⟨by rw [heq]; rfl, hbal, ?_⟩
  intro h
  rw [hbal, hr] at h
  have : (100 : ℚ) = 100 - 10 := by
    simpa using h
  norm_num at this

/-- C1 (amended): for every call of `process_fund_transfer` that
returns a transaction id, with the session commit succeeding, the sum
of the balances read for the source and the target account numbers is
conserved; moreover, when the source and target numbers differ the
source balance decreases by exactly the rounded amount and the target
balance increases by exactly the rounded amount, while for a
self-transfer (equal numbers) the balance is unchanged. -/
theorem conservation_on_success (cA cO cF : Bool) (today : Nat) (cid : String)
    (req : TransactionRequest) (tid ftid : String) (s : BankState)
    (hok : (process_fund_transfer cA cO cF today cid req tid ftid s).1 =
      .ok tid)
    (hcommit : cA = true) :
    balOf (process_fund_transfer cA cO cF today cid req tid ftid s).2
        req.source_account_number +
      balOf (process_fund_transfer cA cO cF today cid req tid ftid s).2
        req.target_account_number =
      balOf s req.source_account_number + balOf s req.target_account_number ∧
    (req.source_account_number ≠ req.target_account_number →
      balOf (process_fund_transfer cA cO cF today cid req tid ftid s).2
          req.source_account_number =
        balOf s req.source_account_number - roundHalfUp2 req.amount ∧
      balOf (process_fund_transfer cA cO cF today cid req tid ftid s).2
          req.target_account_number =
        balOf s req.target_account_number + roundHalfUp2 req.amount) ∧
    (req.source_account_number = req.target_account_number →
      balOf (process_fund_transfer cA cO cF today cid req tid ftid s).2
          req.source_account_number =
        balOf s req.source_account_number) := by
  subst hcommit
  rcases process_outcome_cases true cO cF today cid req tid ftid s with
    ⟨e, hne, heq⟩ | ⟨src, tgt, h1, h2, h3, h4, h5, heq⟩
  · rw [heq] at hok
    simp at hok
  · have hO : cO = true := by
      cases cO
      · rw [heq] at hok
        simp at hok
      · rfl
    subst hO
    rw [heq]
    simp only [if_true]
    have hsrcbal : balOf s req.source_account_number = src.current_balance := by
      unfold balOf
      rw [h1]
    have htgtbal : balOf s req.target_account_number = tgt.current_balance := by
      unfold balOf
      rw [h2]
    by_cases hnm : req.source_account_number = req.target_account_number
    · have hsame : balOf (successState today cid req tid src tgt s)
          req.source_account_number = src.current_balance := by
        unfold balOf successState
        rw [← hnm, findAccount_updFirstBalance_self,
          findAccount_updFirstBalance_self, h1]
        show src.current_balance + -roundHalfUp2 req.amount +
          roundHalfUp2 req.amount = _
        ring
      refine ⟨?_, fun hneq => absurd hnm hneq, fun _ => by rw [hsame, hsrcbal]⟩
      rw [← hnm, hsame, hsrcbal]
    · have hs : balOf (successState today cid req tid src tgt s)
          req.source_account_number =
          src.current_balance - roundHalfUp2 req.amount := by
        unfold balOf successState
        rw [findAccount_updFirstBalance_ne _ _ _ _ hnm,
          findAccount_updFirstBalance_self, h1]
        show src.current_balance + -roundHalfUp2 req.amount = _
        ring
      have ht : balOf (successState today cid req tid src tgt s)
          req.target_account_number =
          tgt.current_balance + roundHalfUp2 req.amount := by
        unfold balOf successState
        rw [findAccount_updFirstBalance_self,
          findAccount_updFirstBalance_ne _ _ _ _ (fun e => hnm e.symm), h2]
        rfl
      refine ⟨?_, fun _ => ⟨by rw [hs, hsrcbal], by rw [ht, htgtbal]⟩,
        fun heq2 => absurd heq2 hnm⟩
      rw [hs, ht, hsrcbal, htgtbal]
      ring

/-- Witness for C1 (amended) at a concrete input: a successful
transfer of 30 from `N1` (balance 100) to `N2` (balance 5) conserves
the sum and moves exactly 30. -/
theorem conservation_on_success_witness :
    balOf (process_fund_transfer true true true 0 "c1" ⟨"N1", "N2", 30⟩ "t1"
        "f1" ⟨[⟨"a1", "c1", "N1", 100⟩, ⟨"a2", "c2", "N2", 5⟩], [], [], []⟩).2
        "N1" +
      balOf (process_fund_transfer true true true 0 "c1" ⟨"N1", "N2", 30⟩ "t1"
        "f1" ⟨[⟨"a1", "c1", "N1", 100⟩, ⟨"a2", "c2", "N2", 5⟩], [], [], []⟩).2
        "N2" =
      balOf ⟨[⟨"a1", "c1", "N1", 100⟩, ⟨"a2", "c2", "N2", 5⟩], [], [], []⟩
          "N1" +
        balOf ⟨[⟨"a1", "c1", "N1", 100⟩, ⟨"a2", "c2", "N2", 5⟩], [], [], []⟩
          "N2" := by
  have hr : roundHalfUp2 ((30 : ℚ)) = 30 :=
    roundHalfUp2_eq_self (by norm_num) (by norm_num)
  have hok : (process_fund_transfer true true true 0 "c1" ⟨"N1", "N2", 30⟩
      "t1" "f1"
      ⟨[⟨"a1", "c1", "N1", 100⟩, ⟨"a2", "c2", "N2", 5⟩], [], [], []⟩).1 =
      .ok "t1" := by
    rw [process_validated_eq true true true 0 "c1" ⟨"N1", "N2", 30⟩ "t1" "f1"
      ⟨[⟨"a1", "c1", "N1", 100⟩, ⟨"a2", "c2", "N2", 5⟩], [], [], []⟩
      ⟨"a1", "c1", "N1", 100⟩ ⟨"a2", "c2", "N2", 5⟩ rfl rfl rfl
      (by
        show trackerAmtL [] "a1" 0 + roundHalfUp2 (30 : ℚ) ≤
          DAILY_TRANSFER_LIMIT
        rw [hr]
        norm_num [trackerAmtL, findTracker, DAILY_TRANSFER_LIMIT])
      (by rw [hr]; norm_num)]
    rfl
  exact (conservation_on_success true true true 0 "c1" ⟨"N1", "N2", 30⟩ "t1"
    "f1" ⟨[⟨"a1", "c1", "N1", 100⟩, ⟨"a2", "c2", "N2", 5⟩], [], [], []⟩
    hok rfl).1

/-- C10: a transfer whose source and target account numbers are the
same existing, owned account, with a positive rounded amount within
the daily headroom and at most the balance, succeeds; the balance is
unchanged (the debit and the credit hit the same row), yet the daily
tracker still grows by the full amount and a Success `Transaction` row
with identical source and target account ids is recorded. -/
theorem self_transfer_rule (cF : Bool) (today : Nat) (cid n : String)
    (amount : ℚ) (tid ftid : String) (s : BankState) (src : Account)
    (hsrc : findAccount s.accounts n = some src)
    (hown : src.customer_id = cid)
    (_hpos : 0 < roundHalfUp2 amount)
    (hlim : trackerAmtOf s src.account_id today + roundHalfUp2 amount ≤
      DAILY_TRANSFER_LIMIT)
    (hbal : roundHalfUp2 amount ≤ src.current_balance) :
    (process_fund_transfer true true cF today cid ⟨n, n, amount⟩ tid ftid
        s).1 = .ok tid ∧
    balOf (process_fund_transfer true true cF today cid ⟨n, n, amount⟩ tid
        ftid s).2 n = balOf s n ∧
    trackerAmtOf (process_fund_transfer true true cF today cid ⟨n, n, amount⟩
        tid ftid s).2 src.account_id today =
      trackerAmtOf s src.account_id today + roundHalfUp2 amount ∧
    (process_fund_transfer true true cF today cid ⟨n, n, amount⟩ tid ftid
        s).2.transactions =
      s.transactions ++
        [⟨tid, src.account_id, src.account_id, roundHalfUp2 amount,
          .TRANSFER, today, .SUCCESS⟩] := by
  have heq := process_validated_eq true true cF today cid ⟨n, n, amount⟩ tid
    ftid s src src hsrc hsrc hown hlim hbal
  rw [heq]
  simp only [if_true]
  refine ⟨by trivial, ?_, ?_, by trivial⟩
  · unfold balOf successState
    rw [findAccount_updFirstBalance_self, findAccount_updFirstBalance_self,
      hsrc]
    show src.current_balance + -roundHalfUp2 amount + roundHalfUp2 amount = _
    ring
  · show trackerAmtL
      (successState today cid ⟨n, n, amount⟩ tid src src s).trackers
      src.account_id today = _
    unfold successState
    rw [trackerAmtL_set_gdt_self, get_daily_tracker_fst]
    rfl

/-- Witness for C10 at a concrete input: a self-transfer of 10 on
account `N1` (balance 100, no tracker yet) succeeds, keeps the balance
at 100, sets the tracker to 10, and records a Success row with equal
source and target ids. -/
theorem self_transfer_rule_witness :
    (process_fund_transfer true true true 0 "c1" ⟨"N1", "N1", 10⟩ "t9" "f9"
        ⟨[⟨"a1", "c1", "N1", 100⟩], [], [], []⟩).1 = .ok "t9" ∧
    balOf (process_fund_transfer true true true 0 "c1" ⟨"N1", "N1", 10⟩ "t9"
        "f9" ⟨[⟨"a1", "c1", "N1", 100⟩], [], [], []⟩).2 "N1" =
      balOf ⟨[⟨"a1", "c1", "N1", 100⟩], [], [], []⟩ "N1" ∧
    trackerAmtOf (process_fund_transfer true true true 0 "c1" ⟨"N1", "N1", 10⟩
        "t9" "f9" ⟨[⟨"a1", "c1", "N1", 100⟩], [], [], []⟩).2 "a1" 0 =
      trackerAmtOf ⟨[⟨"a1", "c1", "N1", 100⟩], [], [], []⟩ "a1" 0 +
        roundHalfUp2 10 ∧
    (process_fund_transfer true true true 0 "c1" ⟨"N1", "N1", 10⟩ "t9" "f9"
        ⟨[⟨"a1", "c1", "N1", 100⟩], [], [], []⟩).2.transactions =
      [] ++ [⟨"t9", "a1", "a1", roundHalfUp2 10, .TRANSFER, 0, .SUCCESS⟩] := by
  have hr : roundHalfUp2 ((10 : ℚ)) = 10 :=
    roundHalfUp2_eq_self (by norm_num) (by norm_num)
  exact self_transfer_rule true 0 "c1" "N1" 10 "t9" "f9"
    ⟨[⟨"a1", "c1", "N1", 100⟩], [], [], []⟩ ⟨"a1", "c1", "N1", 100⟩
    rfl rfl (by rw [hr]; norm_num)
    (by
      show trackerAmtL [] "a1" 0 + roundHalfUp2 (10 : ℚ) ≤ DAILY_TRANSFER_LIMIT
      rw [hr]
      norm_num [trackerAmtL, findTracker, DAILY_TRANSFER_LIMIT])
    (by rw [hr]; norm_num)

/-- Counterexample to C4 as stated: a transfer rejected by the balance
check (amount 200 against balance 100) raises before the `try:` block
is ever entered, so it produces zero `Transaction` rows and zero audit
entries — not "exactly one Transaction row and at least one Audit
entry". -/
theorem rejected_transfer_writes_no_rows_cex :
    (transfer true true true 0 "c1" "N1" "N2" 200 "t1" "f1"
        ⟨[⟨"a1", "c1", "N1", 100⟩, ⟨"a2", "c2", "N2", 0⟩], [], [], []⟩).1 =
      .err .insufficientFunds ∧
    (transfer true true true 0 "c1" "N1" "N2" 200 "t1" "f1"
        ⟨[⟨"a1", "c1", "N1", 100⟩, ⟨"a2", "c2", "N2", 0⟩], [], [], []⟩).2.transactions =
      [] ∧
    (transfer true true true 0 "c1" "N1" "N2" 200 "t1" "f1"
        ⟨[⟨"a1", "c1", "N1", 100⟩, ⟨"a2", "c2", "N2", 0⟩], [], [], []⟩).2.audits =
      [] := by
  have hv : validAmount 200 := ⟨by norm_num, by norm_num, by norm_num⟩
  have hr : roundHalfUp2 ((200 : ℚ)) = 200 :=
    roundHalfUp2_eq_self (by norm_num) (by norm_num)
  rw [transfer_eq_process true true true 0 "c1" "N1" "N2" 200 "t1" "f1" _ hv]
  rw [process_insufficientFunds true true true 0 "c1" ⟨"N1", "N2", 200⟩ "t1"
    "f1" ⟨[⟨"a1", "c1", "N1", 100⟩, ⟨"a2", "c2", "N2", 0⟩], [], [], []⟩
    ⟨"a1", "c1", "N1", 100⟩ ⟨"a2", "c2", "N2", 0⟩ rfl rfl rfl
    (by
      show trackerAmtL [] "a1" 0 + roundHalfUp2 (200 : ℚ) ≤
        DAILY_TRANSFER_LIMIT
      rw [hr]
      norm_num [trackerAmtL, findTracker, DAILY_TRANSFER_LIMIT])
    (by rw [hr]; norm_num)]
  exact ⟨rfl, rfl, rfl⟩

/-- C4 (amended): an invocation of the transfer pipeline that passes
all validation checks and whose storage commit succeeds produces
exactly one new `Transaction` row and at least one new audit entry; an
invocation rejected by any validation check (including the pydantic
amount check) writes nothing — tables, balances and trackers are
exactly the input state. -/
theorem transaction_rows_rule (cA cO cF : Bool) (today : Nat)
    (cid srcN tgtN : String) (amount : ℚ) (tid ftid : String)
    (s : BankState) :
    (∀ e, (transfer cA cO cF today cid srcN tgtN amount tid ftid s).1 =
        .err e → e ≠ .internalError →
      (transfer cA cO cF today cid srcN tgtN amount tid ftid s).2 = s) ∧
    ((transfer cA cO cF today cid srcN tgtN amount tid ftid s).1 = .ok tid →
      cA = true →
      ∃ t en,
        (transfer cA cO cF today cid srcN tgtN amount tid ftid
            s).2.transactions = s.transactions ++ [t] ∧
        (transfer cA cO cF today cid srcN tgtN amount tid ftid s).2.audits =
          s.audits ++ [en]) := by
  by_cases hv : validAmount amount
  · rw [transfer_eq_process cA cO cF today cid srcN tgtN amount tid ftid s hv]
    rcases process_outcome_cases cA cO cF today cid ⟨srcN, tgtN, amount⟩ tid
      ftid s with ⟨e0, hne0, heq⟩ | ⟨src, tgt, h1, h2, h3, h4, h5, heq⟩
    · rw [heq]
      exact ⟨fun e h hne => rfl, fun h => by simp at h⟩
    · rw [heq]
      constructor
      · intro e h hne
        cases cO
        · simp at h
          exact absurd h.symm hne
        · simp at h
      · intro h hA
        cases cO
        · simp at h
        · subst hA
          simp only [if_true]
          exact ⟨_, _, rfl, rfl⟩
  · rw [transfer_invalid cA cO cF today cid srcN tgtN amount tid ftid s hv]
    exact ⟨fun e h hne => rfl, fun h => by simp at h⟩

/-- Witness for C4 (amended) at a concrete input: a successful
transfer of 50 from `N1` to `N2` appends exactly one Transaction row
and one audit entry. -/
theorem transaction_rows_rule_witness :
    ∃ t en,
      (transfer true true true 0 "c1" "N1" "N2" 50 "t1" "f1"
          ⟨[⟨"a1", "c1", "N1", 100⟩, ⟨"a2", "c2", "N2", 0⟩], [], [],
            []⟩).2.transactions = [] ++ [t] ∧
      (transfer true true true 0 "c1" "N1" "N2" 50 "t1" "f1"
          ⟨[⟨"a1", "c1", "N1", 100⟩, ⟨"a2", "c2", "N2", 0⟩], [], [],
            []⟩).2.audits = [] ++ [en] := by
  have hv : validAmount 50 := ⟨by norm_num, by norm_num, by norm_num⟩
  have hr : roundHalfUp2 ((50 : ℚ)) = 50 :=
    roundHalfUp2_eq_self (by norm_num) (by norm_num)
  have hok : (transfer true true true 0 "c1" "N1" "N2" 50 "t1" "f1"
      ⟨[⟨"a1", "c1", "N1", 100⟩, ⟨"a2", "c2", "N2", 0⟩], [], [], []⟩).1 =
      .ok "t1" := by
    rw [transfer_eq_process true true true 0 "c1" "N1" "N2" 50 "t1" "f1" _ hv]
    rw [process_validated_eq true true true 0 "c1" ⟨"N1", "N2", 50⟩ "t1" "f1"
      ⟨[⟨"a1", "c1", "N1", 100⟩, ⟨"a2", "c2", "N2", 0⟩], [], [], []⟩
      ⟨"a1", "c1", "N1", 100⟩ ⟨"a2", "c2", "N2", 0⟩ rfl rfl rfl
      (by
        show trackerAmtL [] "a1" 0 + roundHalfUp2 (50 : ℚ) ≤
          DAILY_TRANSFER_LIMIT
        rw [hr]
        norm_num [trackerAmtL, findTracker, DAILY_TRANSFER_LIMIT])
      (by rw [hr]; norm_num)]
    rfl
  exact (transaction_rows_rule true true true 0 "c1" "N1" "N2" 50 "t1" "f1"
    ⟨[⟨"a1", "c1", "N1", 100⟩, ⟨"a2", "c2", "N2", 0⟩], [], [], []⟩).2 hok rfl

theorem balOf_nonneg_of_all {s : BankState} (n : String)
    (h : ∀ a ∈ s.accounts, 0 ≤ a.current_balance) : 0 ≤ balOf s n := by
  unfold balOf
  cases hf : findAccount s.accounts n with
  | none => exact le_refl 0
  | some a => exact h a (findAccount_mem hf)

/-- C8: starting from non-negative balances, no transfer invocation —
accepted, rejected, or with any combination of commit failures — can
make any account's balance negative: sufficiency is checked before the
debit is applied and the credited amount is positive. -/
theorem balances_nonneg (cA cO cF : Bool) (today : Nat)
    (cid srcN tgtN : String) (amount : ℚ) (tid ftid : String) (s : BankState)
    (h0 : ∀ a ∈ s.accounts, 0 ≤ a.current_balance) :
    ∀ a ∈ (transfer cA cO cF today cid srcN tgtN amount tid ftid
      s).2.accounts, 0 ≤ a.current_balance := by
  by_cases hv : validAmount amount
  · rw [transfer_eq_process cA cO cF today cid srcN tgtN amount tid ftid s hv]
    rcases process_outcome_cases cA cO cF today cid ⟨srcN, tgtN, amount⟩ tid
      ftid s with ⟨e0, hne0, heq⟩ | ⟨src, tgt, h1, h2, h3, h4, h5, heq⟩
    · rw [heq]
      exact h0
    · rw [heq]
      have hdeb : ∀ a ∈ updFirstBalance s.accounts srcN
          (-roundHalfUp2 amount), 0 ≤ a.current_balance := by
        apply updFirstBalance_nonneg s.accounts srcN _ h0
        intro b hb
        have hb2 : b = src := by
          have := h1.symm.trans hb
          injection this with h
          exact h.symm
        subst hb2
        have : roundHalfUp2 amount ≤ b.current_balance := h5
        linarith
      have hkey : ∀ a ∈ (successState today cid ⟨srcN, tgtN, amount⟩ tid src
          tgt s).accounts, 0 ≤ a.current_balance := by
        show ∀ a ∈ updFirstBalance (updFirstBalance s.accounts srcN
          (-roundHalfUp2 amount)) tgtN (roundHalfUp2 amount),
          0 ≤ a.current_balance
        apply updFirstBalance_nonneg _ _ _ hdeb
        intro b hb
        have hmem := findAccount_mem hb
        have hb0 := hdeb b hmem
        have hpos := roundHalfUp2_pos_of_validAmount hv
        linarith
      have hbase : ∀ a ∈ ((if cA then
          successState today cid ⟨srcN, tgtN, amount⟩ tid src tgt s
          else s)).accounts, 0 ≤ a.current_balance := by
        cases cA
        · exact h0
        · exact hkey
      cases cO
      · cases cF
        · exact hbase
        · show ∀ a ∈ (failRecordState today cid ⟨srcN, tgtN, amount⟩ ftid src
            tgt _).accounts, 0 ≤ a.current_balance
          unfold failRecordState
          exact hbase
      · exact hbase
  · rw [transfer_invalid cA cO cF today cid srcN tgtN amount tid ftid s hv]
    exact h0

/-- Witness for C8 at a concrete input: after a successful transfer of
50 from `N1` (balance 100) to `N2` (balance 0), both balances read
back non-negative. -/
theorem balances_nonneg_witness :
    0 ≤ balOf (transfer true true true 0 "c1" "N1" "N2" 50 "t1" "f1"
        ⟨[⟨"a1", "c1", "N1", 100⟩, ⟨"a2", "c2", "N2", 0⟩], [], [], []⟩).2
        "N1" ∧
    0 ≤ balOf (transfer true true true 0 "c1" "N1" "N2" 50 "t1" "f1"
        ⟨[⟨"a1", "c1", "N1", 100⟩, ⟨"a2", "c2", "N2", 0⟩], [], [], []⟩).2
        "N2" := by
  have hall := balances_nonneg true true true 0 "c1" "N1" "N2" 50 "t1" "f1"
    ⟨[⟨"a1", "c1", "N1", 100⟩, ⟨"a2", "c2", "N2", 0⟩], [], [], []⟩
    (by
      intro a ha
      simp only [List.mem_cons, List.not_mem_nil, or_false] at ha
      rcases ha with rfl | rfl <;> norm_num)
  exact ⟨balOf_nonneg_of_all "N1" hall, balOf_nonneg_of_all "N2" hall⟩

/-- C7: the daily-tracker invariant is preserved by every transfer
invocation, whatever the outcome and the commit oracle: for every
account id and date, the tracker total (zero when no row exists)
equals the sum of the amounts of all Success Transfer rows with that
source on that date; and a tracker row can appear only for the date of
the attempt — before the first attempt of a day no row for that day
exists, and a created row starts from zero before the attempt's own
amount is added. -/
theorem tracker_equals_success_sums (cA cO cF : Bool) (today : Nat)
    (cid srcN tgtN : String) (amount : ℚ) (tid ftid : String) (s : BankState)
    (hInv : ∀ aid d, trackerAmtOf s aid d = sumSuccessTransfers s aid d) :
    (∀ aid d,
      trackerAmtOf (transfer cA cO cF today cid srcN tgtN amount tid ftid
          s).2 aid d =
        sumSuccessTransfers
          (transfer cA cO cF today cid srcN tgtN amount tid ftid s).2 aid d) ∧
    (∀ aid d,
      (findTracker (transfer cA cO cF today cid srcN tgtN amount tid ftid
          s).2.trackers aid d).isSome = true →
      (findTracker s.trackers aid d).isSome = true ∨ d = today) := by
  by_cases hv : validAmount amount
  · rw [transfer_eq_process cA cO cF today cid srcN tgtN amount tid ftid s hv]
    rcases process_outcome_cases cA cO cF today cid ⟨srcN, tgtN, amount⟩ tid
      ftid s with ⟨e0, hne0, heq⟩ | ⟨src, tgt, h1, h2, h3, h4, h5, heq⟩
    · rw [heq]
      exact ⟨hInv, fun aid d h => Or.inl h⟩
    · rw [heq]
      have hsInv : ∀ aid d,
          trackerAmtOf (successState today cid ⟨srcN, tgtN, amount⟩ tid src
            tgt s) aid d =
          sumSuccessTransfers (successState today cid ⟨srcN, tgtN, amount⟩
            tid src tgt s) aid d := by
        intro aid d
        show trackerAmtL (setFirstTracker
            (get_daily_tracker s.trackers src.account_id today).2
            src.account_id today
            ((get_daily_tracker s.trackers src.account_id today).1 +
              roundHalfUp2 amount)) aid d =
          sumSuccessL (s.transactions ++
            [⟨tid, src.account_id, tgt.account_id, roundHalfUp2 amount,
              .TRANSFER, today, .SUCCESS⟩]) aid d
        rw [sumSuccessL_append_one, countsFor_success_row]
        by_cases hk : aid = src.account_id ∧ d = today
        · rw [hk.1, hk.2]
          rw [trackerAmtL_set_gdt_self, get_daily_tracker_fst]
          have hcond : (src.account_id == src.account_id &&
              (today == today : Bool)) = true := by simp
          rw [hcond, if_pos rfl]
          have h' : trackerAmtL s.trackers src.account_id today =
              sumSuccessL s.transactions src.account_id today :=
            hInv src.account_id today
          rw [h']
        · rw [trackerAmtL_set_gdt_ne _ _ _ _ _ _ hk]
          have hcond : (src.account_id == aid && (today == d : Bool)) =
              false := by
            rw [Bool.and_eq_false_iff]
            rcases not_and_or.mp hk with hh | hh
            · exact Or.inl (beq_eq_false_iff_ne.mpr fun e => hh e.symm)
            · exact Or.inr (beq_eq_false_iff_ne.mpr fun e => hh e.symm)
          rw [hcond]
          simp only [Bool.false_eq_true, if_false, add_zero]
          exact hInv aid d
      have hsEx : ∀ aid d,
          (findTracker (successState today cid ⟨srcN, tgtN, amount⟩ tid src
            tgt s).trackers aid d).isSome = true →
          (findTracker s.trackers aid d).isSome = true ∨ d = today := by
        intro aid d h
        by_cases hk : aid = src.account_id ∧ d = today
        · exact Or.inr hk.2
        · left
          have hsame : findTracker (successState today cid ⟨srcN, tgtN,
              amount⟩ tid src tgt s).trackers aid d =
              findTracker s.trackers aid d := by
            show findTracker (setFirstTracker
              (get_daily_tracker s.trackers src.account_id today).2
              src.account_id today _) aid d = _
            rw [findTracker_setFirstTracker_ne _ _ _ _ _ _ hk,
              findTracker_gdt_ne _ _ _ _ _ hk]
          rw [← hsame]
          exact h
      have hfInv : ∀ base : BankState,
          (∀ aid d, trackerAmtOf base aid d =
            sumSuccessTransfers base aid d) →
          ∀ aid d,
            trackerAmtOf (failRecordState today cid ⟨srcN, tgtN, amount⟩
              ftid src tgt base) aid d =
            sumSuccessTransfers (failRecordState today cid ⟨srcN, tgtN,
              amount⟩ ftid src tgt base) aid d := by
        intro base hb aid d
        show trackerAmtL base.trackers aid d =
          sumSuccessL (base.transactions ++
            [⟨ftid, src.account_id, tgt.account_id, roundHalfUp2 amount,
              .TRANSFER, today, .FAILED⟩]) aid d
        rw [sumSuccessL_append_one, countsFor_failed_row]
        simp only [Bool.false_eq_true, if_false, add_zero]
        exact hb aid d
      have hbaseInv : ∀ aid d,
          trackerAmtOf ((if cA then successState today cid ⟨srcN, tgtN,
            amount⟩ tid src tgt s else s)) aid d =
          sumSuccessTransfers ((if cA then successState today cid ⟨srcN,
            tgtN, amount⟩ tid src tgt s else s)) aid d := by
        cases cA
        · exact hInv
        · exact hsInv
      have hbaseEx : ∀ aid d,
          (findTracker ((if cA then successState today cid ⟨srcN, tgtN,
            amount⟩ tid src tgt s else s)).trackers aid d).isSome = true →
          (findTracker s.trackers aid d).isSome = true ∨ d = today := by
        cases cA
        · exact fun aid d h => Or.inl h
        · exact hsEx
      cases cO
      · cases cF
        · exact ⟨hbaseInv, hbaseEx⟩
        · exact ⟨hfInv _ hbaseInv, fun aid d h => hbaseEx aid d h⟩
      · exact ⟨hbaseInv, hbaseEx⟩
  · rw [transfer_invalid cA cO cF today cid srcN tgtN amount tid ftid s hv]
    exact ⟨hInv, fun aid d h => Or.inl h⟩

/-- Witness for C7 at a concrete input: after a successful transfer of
50 out of `a1` on date 0 starting from an empty ledger, the tracker
total for `(a1, 0)` equals the sum of Success Transfer amounts from
`a1` on date 0. -/
theorem tracker_equals_success_sums_witness :
    trackerAmtOf (transfer true true true 0 "c1" "N1" "N2" 50 "t1" "f1"
        ⟨[⟨"a1", "c1", "N1", 100⟩, ⟨"a2", "c2", "N2", 0⟩], [], [], []⟩).2
        "a1" 0 =
      sumSuccessTransfers (transfer true true true 0 "c1" "N1" "N2" 50 "t1"
        "f1" ⟨[⟨"a1", "c1", "N1", 100⟩, ⟨"a2", "c2", "N2", 0⟩], [], [], []⟩).2
        "a1" 0 :=
  (tracker_equals_success_sums true true true 0 "c1" "N1" "N2" 50 "t1" "f1"
    ⟨[⟨"a1", "c1", "N1", 100⟩, ⟨"a2", "c2", "N2", 0⟩], [], [], []⟩
    (fun _ _ => rfl)).1 "a1" 0
